import Mathlib

/-!
Verification development for the web-automation-agent repository.

We give a shallow embedding of the intent-to-plan compiler
(src/agents/intent_parser_v2.py, src/agents/intent_handlers.py,
src/agents/intent_config.py), the action schema validator
(src/agents/models.py), the resilient executor
(src/Automation/browser_executor.py) and the booking-flow
city-suggestion selection (src/Automation/make_my_trip.py), and prove
the spec's testable properties about them.

Modelling conventions:
* Python `str` is modelled as `List Char` (named `Str`); all string
  operations (`replace`, `strip`, `lower`, `split`, `startswith`,
  `endswith`, `in`) are implemented below with Python's semantics,
  restricted to ASCII text (every string the program manipulates is
  ASCII).
* `datetime.now()` is modelled by a parameter `today : Nat`, the number
  of days since 1970-01-01 (a Thursday, so Python's
  `datetime.weekday()` is `(today + 3) % 7`, Monday = 0).
* Regular-expression searches are modelled at the whitespace-token
  level: every regex used by the handlers alternates fixed words,
  `\s+` separators, optional groups and lazy/greedy captures, so over
  a whitespace-separated command a match corresponds exactly to a
  token-level match; backtracking is reproduced by trying the
  candidate splits in the engine's preference order.
* The browser session is external: the executor's per-action runners
  are abstracted as a function `Action → Except String Unit`
  (success, or a raised exception with a message), and the suggestion
  list of the booking flow as a list of options with visibility and
  text content.
-/

namespace WebAgent

/-! ## String model: Python `str` as `List Char` -/

/-- Python strings, modelled as lists of characters. -/
abbrev Str := List Char

/-- Turn a Lean string literal into the model type. -/
def strL (s : String) : Str := s.data

/-- Python `\s` for the ASCII whitespace the commands contain. -/
def isSpaceChar (c : Char) : Bool :=
  c = ' ' || c = '\t' || c = '\n' || c = '\x0d'

/-- ASCII `str.lower` on one character. -/
def lowerChar (c : Char) : Char :=
  if 'A' ≤ c && c ≤ 'Z' then Char.ofNat (c.toNat + 32) else c

/-- ASCII `str.lower`. -/
def lowerStr (s : Str) : Str := s.map lowerChar

/-- Python `str.strip()` (drop leading and trailing whitespace). -/
def trimStr (s : Str) : Str :=
  ((s.dropWhile isSpaceChar).reverse.dropWhile isSpaceChar).reverse

/-- Helper of `splitWs`: accumulate the current word (reversed). -/
def splitWsGo : Str → Str → List Str
  | acc, [] => if acc = [] then [] else [acc.reverse]
  | acc, c :: rest =>
    if isSpaceChar c then
      if acc = [] then splitWsGo [] rest else acc.reverse :: splitWsGo [] rest
    else splitWsGo (c :: acc) rest

/-- Python `str.split()` with no argument: split on whitespace runs,
dropping empty pieces. -/
def splitWs (s : Str) : List Str := splitWsGo [] s

/-- Join tokens with single spaces (inverse of `splitWs` on normalized
text); models `' '.join` / the effect of `re.sub(r'\s+', ' ', ...)`. -/
def joinWs : List Str → Str
  | [] => []
  | [t] => t
  | t :: rest => t ++ ' ' :: joinWs rest

/-- Python `re.sub(r'\s+', ' ', s)` followed by `strip()`. -/
def normWs (s : Str) : Str := joinWs (splitWs s)

/-- Python `needle in hay` (substring containment; `'' in s` is true). -/
def containsSub : Str → Str → Bool
  | hay, needle =>
    needle.isPrefixOf hay ||
      match hay with
      | [] => false
      | _ :: t => containsSub t needle

/-- Structural worker of `removeAll`: `skip` counts characters of a
matched occurrence still to be dropped. -/
def removeAllGo (pat : Str) : Nat → Str → Str
  | _, [] => []
  | Nat.succ k, _ :: t => removeAllGo pat k t
  | 0, c :: t =>
    if pat ≠ [] && pat.isPrefixOf (c :: t) then
      removeAllGo pat (pat.length - 1) t
    else
      c :: removeAllGo pat 0 t

/-- Python `hay.replace(pat, '')` for a non-empty `pat`: delete every
(leftmost, non-overlapping) occurrence.  For `pat = []` this is the
identity; the program never calls `replace` with an empty pattern. -/
def removeAll (hay pat : Str) : Str := removeAllGo pat 0 hay

/-- Apply `removeAll` for each pattern in order (the handlers' repeated
`s = s.replace(kw, '')` loops). -/
def removeAllList (s : Str) (pats : List Str) : Str :=
  pats.foldl removeAll s

/-- Association-list lookup with `Str` keys (Python `dict` lookup for
the string-keyed configuration tables, which the program only reads). -/
def lookupStr (m : List (Str × Str)) (k : Str) : Option Str :=
  (m.find? (fun p => p.1 = k)).map (·.2)

/-! ## Configuration tables (src/agents/intent_config.py) -/

/-- `WEBSITE_MAP`, in declaration order (iteration order of the dict). -/
def websiteMap : List (Str × Str) :=
  [ (strL "google", strL "https://www.google.com"),
    (strL "google.com", strL "https://www.google.com"),
    (strL "youtube", strL "https://www.youtube.com"),
    (strL "youtube.com", strL "https://www.youtube.com"),
    (strL "github", strL "https://www.github.com"),
    (strL "github.com", strL "https://www.github.com"),
    (strL "stackoverflow", strL "https://stackoverflow.com"),
    (strL "stackoverflow.com", strL "https://stackoverflow.com"),
    (strL "reddit", strL "https://www.reddit.com"),
    (strL "reddit.com", strL "https://www.reddit.com"),
    (strL "wikipedia", strL "https://www.wikipedia.org"),
    (strL "wikipedia.org", strL "https://www.wikipedia.org"),
    (strL "amazon", strL "https://www.amazon.in"),
    (strL "amazon.in", strL "https://www.amazon.in"),
    (strL "amazon.com", strL "https://www.amazon.com"),
    (strL "twitter", strL "https://www.twitter.com"),
    (strL "twitter.com", strL "https://www.twitter.com"),
    (strL "linkedin", strL "https://www.linkedin.com"),
    (strL "linkedin.com", strL "https://www.linkedin.com"),
    (strL "facebook", strL "https://www.facebook.com"),
    (strL "facebook.com", strL "https://www.facebook.com") ]

/-- `FIELD_SELECTOR_MAP`. -/
def fieldSelectorMap : List (Str × Str) :=
  [ (strL "search box",
     strL "input[name=\x27q\x27], textarea[name=\x27q\x27], input[type=\x27search\x27]"),
    (strL "search field",
     strL "input[name=\x27q\x27], textarea[name=\x27q\x27], input[type=\x27search\x27]"),
    (strL "email", strL "input[type=\x27email\x27]"),
    (strL "password", strL "input[type=\x27password\x27]"),
    (strL "username", strL "input[name=\x27username\x27], input[name=\x27user\x27]"),
    (strL "name", strL "input[name=\x27name\x27], input[name=\x27fullname\x27]") ]

/-- `ELEMENT_SELECTOR_MAP`. -/
def elementSelectorMap : List (Str × Str) :=
  [ (strL "submit button",
     strL "input[type=\x27submit\x27], button[type=\x27submit\x27], button.submit"),
    (strL "search button",
     strL "input[type=\x27submit\x27], button[type=\x27submit\x27], button.search"),
    (strL "login button",
     strL "input[type=\x27submit\x27], button[type=\x27submit\x27], button.login"),
    (strL "first result", strL "div.g a"),
    (strL "first link", strL "a:first-of-type"),
    (strL "button", strL "button") ]

/-- `CITY_MAPPING`: abbreviations / airport codes → canonical city. -/
def cityMapping : List (Str × Str) :=
  [ (strL "nyc", strL "New York"),
    (strL "new york city", strL "New York"),
    (strL "sf", strL "San Francisco"),
    (strL "san fran", strL "San Francisco"),
    (strL "sfo", strL "San Francisco"),
    (strL "la", strL "Los Angeles"),
    (strL "lax", strL "Los Angeles"),
    (strL "chi", strL "Chicago"),
    (strL "ord", strL "Chicago"),
    (strL "dc", strL "Washington DC"),
    (strL "washington d.c.", strL "Washington DC"),
    (strL "mumbai", strL "Mumbai"),
    (strL "bombay", strL "Mumbai"),
    (strL "bom", strL "Mumbai"),
    (strL "delhi", strL "Delhi"),
    (strL "del", strL "Delhi"),
    (strL "new delhi", strL "Delhi"),
    (strL "bengaluru", strL "Bengaluru"),
    (strL "bangalore", strL "Bengaluru"),
    (strL "blr", strL "Bengaluru"),
    (strL "chennai", strL "Chennai"),
    (strL "madras", strL "Chennai"),
    (strL "maa", strL "Chennai"),
    (strL "kolkata", strL "Kolkata"),
    (strL "calcutta", strL "Kolkata"),
    (strL "ccu", strL "Kolkata"),
    (strL "london", strL "London"),
    (strL "lon", strL "London"),
    (strL "lhr", strL "London"),
    (strL "paris", strL "Paris"),
    (strL "cdg", strL "Paris"),
    (strL "miami", strL "Miami"),
    (strL "mia", strL "Miami") ]

/-- `WEBSITE_CONFIGS`, reduced to the `search_selector` field the
handlers read (the youtube `first_video_selector` is separate below). -/
def websiteConfigsSearch : List (Str × Str) :=
  [ (strL "youtube", strL "input[name=\x27search_query\x27]"),
    (strL "google", strL "textarea[name=\x27q\x27]"),
    (strL "wikipedia", strL "#searchInput"),
    (strL "wikipedia.org", strL "#searchInput"),
    (strL "amazon", strL "input[name=\x27field-keywords\x27]") ]

/-- `WEBSITE_CONFIGS['youtube']['first_video_selector']`. -/
def youtubeFirstVideoSelector : Str :=
  strL "ytd-video-renderer a#video-title[href*=\x27watch\x27]:not([href*=\x27shorts\x27])"

/-- `ACTION_KEYWORDS['navigate']`. -/
def kwNavigate : List Str :=
  [strL "go to", strL "navigate to", strL "open", strL "visit"]

/-- `ACTION_KEYWORDS['search']`. -/
def kwSearch : List Str :=
  [strL "search", strL "find", strL "look for", strL "look up"]

/-- `ACTION_KEYWORDS['fill']`. -/
def kwFill : List Str :=
  [strL "fill", strL "enter", strL "input", strL "type in"]

/-- `ACTION_KEYWORDS['click']`. -/
def kwClick : List Str :=
  [strL "click", strL "press", strL "tap"]

/-- `ACTION_KEYWORDS['wait']`. -/
def kwWait : List Str :=
  [strL "wait", strL "pause", strL "delay"]

/-- `ACTION_KEYWORDS['screenshot']`. -/
def kwScreenshot : List Str :=
  [strL "screenshot", strL "capture", strL "take a picture", strL "snap"]

/-- `ACTION_KEYWORDS['book_flight']`. -/
def kwBookFlight : List Str :=
  [strL "book flight", strL "book a flight", strL "search flight",
   strL "find flight", strL "fly from"]

/-- `ACTION_KEYWORDS['play']`. -/
def kwPlay : List Str :=
  [strL "play", strL "watch", strL "listen to"]

/-- `any(keyword in command for keyword in kws)`. -/
def anyKw (command : Str) (kws : List Str) : Bool :=
  kws.any (fun k => containsSub command k)

/-! ## Calendar model (Python `datetime`, as used by the handlers)

A moment in time is a day number: days since 1970-01-01.  That day was
a Thursday, for which Python's `datetime.weekday()` returns 3. -/

/-- Python `datetime.weekday()` of a day number (Monday = 0). -/
def pyWeekday (d : Nat) : Nat := (d + 3) % 7

/-- Proleptic-Gregorian (year, month, day) of a day number (days since
1970-01-01); the standard era-based conversion used by calendar
libraries, valid for every `z : Nat`. -/
def civilFromDays (z : Nat) : Nat × Nat × Nat :=
  let z' := z + 719468
  let era := z' / 146097
  let doe := z' % 146097
  let yoe := (doe - doe / 1460 + doe / 36524 - doe / 146096) / 365
  let y := yoe + era * 400
  let doy := doe - (365 * yoe + yoe / 4 - yoe / 100)
  let mp := (5 * doy + 2) / 153
  let d := doy - (153 * mp + 2) / 5 + 1
  let m := if mp < 10 then mp + 3 else mp - 9
  if m ≤ 2 then (y + 1, m, d) else (y, m, d)

/-- Decimal digit character. -/
def digitChar (n : Nat) : Char := Char.ofNat (48 + n)

/-- Fuel-indexed digit expansion (the fuel `n` dominates the digit
count, so the fallback is unreachable). -/
def natToDigitsGo : Nat → Nat → Str
  | 0, n => [digitChar n]
  | fuel + 1, n =>
    if n < 10 then [digitChar n]
    else natToDigitsGo fuel (n / 10) ++ [digitChar (n % 10)]

/-- Decimal digits of a natural number, most significant first. -/
def natToDigits (n : Nat) : Str := natToDigitsGo n n

/-- Zero-padded decimal rendering (`strftime`'s `%Y`/`%m`/`%d`
padding). -/
def padNum (w n : Nat) : Str :=
  let s := natToDigits n
  List.replicate (w - s.length) '0' ++ s

/-- `strftime('%Y-%m-%d')` for an explicit (year, month, day). -/
def formatYMD (y m d : Nat) : Str :=
  padNum 4 y ++ '-' :: padNum 2 m ++ '-' :: padNum 2 d

/-- `date_obj.strftime('%Y-%m-%d')` for a day number. -/
def formatISO (z : Nat) : Str :=
  let ymd := civilFromDays z
  formatYMD ymd.1 ymd.2.1 ymd.2.2

/-- intent_handlers.py lines 333-336: `days_ahead = (day_idx -
datetime.now().weekday() + 7) % 7; if days_ahead == 0: days_ahead = 7;
date_obj = datetime.now() + timedelta(days=days_ahead)`. -/
def next_weekday_from (today : Nat) (dayIdx : Nat) : Nat :=
  let daysAhead := (dayIdx + 7 - pyWeekday today) % 7
  today + (if daysAhead = 0 then 7 else daysAhead)

/-- The weekday names list of `parse_date`. -/
def weekdayNames : List Str :=
  [strL "monday", strL "tuesday", strL "wednesday", strL "thursday",
   strL "friday", strL "saturday", strL "sunday"]

/-- First index satisfying a predicate (used to model the enumerated
searches of the source; `none` when no element matches). -/
def findIdxL {α : Type} (p : α → Bool) : List α → Option Nat
  | [] => none
  | x :: xs => if p x then some 0 else (findIdxL p xs).map (· + 1)

/-- intent_handlers.py lines 326-330: the first weekday whose name
starts with the first three characters of the requested day name. -/
def findDayIdx (dayName : Str) : Option Nat :=
  findIdxL (fun day => (dayName.take 3).isPrefixOf day) weekdayNames

/-! ### `datetime.strptime` for the fixed format list

Each of the ten format strings of `parse_date` is a sequence of the
directives `%Y` (exactly four digits), `%m` (month 1-12, one or two
digits), `%d` (day 1-31, one or two digits), `%B`/`%b` (full /
abbreviated English month name), literal characters, and literal
whitespace (which `strptime` matches as a whitespace run).  `strptime`
anchors the pattern and requires the whole input to match, and raises
`ValueError` — here `none` — both on a pattern mismatch and on an
invalid calendar date (e.g. February 30). -/

/-- One element of a compiled `strptime` format. -/
inductive FmtTok where
  | lit (c : Char)
  | ws
  | year4
  | month2
  | day2
  | monthFull
  | monthAbbr
deriving DecidableEq

/-- Partially collected `strptime` fields. -/
structure PD where
  y : Option Nat := none
  m : Option Nat := none
  d : Option Nat := none
deriving DecidableEq

/-- ASCII decimal digit test. -/
def isDigitChar (c : Char) : Bool := '0' ≤ c && c ≤ '9'

/-- Value of a digit character. -/
def dVal (c : Char) : Nat := c.toNat - 48

/-- `%m`/`%d`: a two-digit value in `1..hi`, else a single digit
`1..9` (the alternation `1[0-2]|0[1-9]|[1-9]` resp.
`3[01]|[12]\d|0[1-9]|[1-9]` of CPython's compiled patterns; since in
every format of the list a numeric directive is followed by a
non-digit literal or the end of the pattern, preferring the two-digit
branch is equivalent to full backtracking). -/
def num2 (hi : Nat) : Str → Option (Nat × Str)
  | a :: b :: rest =>
    if isDigitChar a && isDigitChar b then
      let v := 10 * dVal a + dVal b
      if 1 ≤ v && v ≤ hi then some (v, rest)
      else if 1 ≤ dVal a then some (dVal a, b :: rest) else none
    else if isDigitChar a && 1 ≤ dVal a then some (dVal a, b :: rest)
    else none
  | [a] => if isDigitChar a && 1 ≤ dVal a then some (dVal a, []) else none
  | [] => none

/-- English month names (inputs reach `strptime` lowercased, and
CPython matches the names case-insensitively). -/
def monthsFull : List Str :=
  [strL "january", strL "february", strL "march", strL "april",
   strL "may", strL "june", strL "july", strL "august",
   strL "september", strL "october", strL "november", strL "december"]

/-- Abbreviated English month names. -/
def monthsAbbr : List Str :=
  [strL "jan", strL "feb", strL "mar", strL "apr", strL "may",
   strL "jun", strL "jul", strL "aug", strL "sep", strL "oct",
   strL "nov", strL "dec"]

/-- Match one of `names` as a prefix of `s`; yields the 1-based month
number and the rest of the input (no month name is a prefix of
another, so the order is irrelevant). -/
def monthScan : List Str → Nat → Str → Option (Nat × Str)
  | [], _, _ => none
  | nm :: rest, i, s =>
    if nm.isPrefixOf s then some (i + 1, s.drop nm.length)
    else monthScan rest (i + 1) s

/-- Run a compiled format against the input; the whole input must be
consumed. -/
def runFmt (pd : PD) : List FmtTok → Str → Option PD
  | [], [] => some pd
  | [], _ :: _ => none
  | .lit c :: fs, s =>
    match s with
    | x :: xs => if x = c then runFmt pd fs xs else none
    | [] => none
  | .ws :: fs, s =>
    match s with
    | x :: xs => if isSpaceChar x then runFmt pd fs (xs.dropWhile isSpaceChar) else none
    | [] => none
  | .year4 :: fs, s =>
    match s with
    | a :: b :: c :: d :: xs =>
      if isDigitChar a && isDigitChar b && isDigitChar c && isDigitChar d then
        runFmt { pd with y := some (1000 * dVal a + 100 * dVal b + 10 * dVal c + dVal d) } fs xs
      else none
    | _ => none
  | .month2 :: fs, s =>
    match num2 12 s with
    | some (v, rest) => runFmt { pd with m := some v } fs rest
    | none => none
  | .day2 :: fs, s =>
    match num2 31 s with
    | some (v, rest) => runFmt { pd with d := some v } fs rest
    | none => none
  | .monthFull :: fs, s =>
    match monthScan monthsFull 0 s with
    | some (v, rest) => runFmt { pd with m := some v } fs rest
    | none => none
  | .monthAbbr :: fs, s =>
    match monthScan monthsAbbr 0 s with
    | some (v, rest) => runFmt { pd with m := some v } fs rest
    | none => none

/-- Gregorian leap year. -/
def isLeap (y : Nat) : Bool :=
  y % 4 = 0 && (y % 100 ≠ 0 || y % 400 = 0)

/-- Days in a month. -/
def daysInMonth (y m : Nat) : Nat :=
  if m = 2 then (if isLeap y then 29 else 28)
  else if m = 4 || m = 6 || m = 9 || m = 11 then 30
  else 31

/-- One `datetime.strptime(s, fmt)` attempt: pattern match, then the
`datetime` constructor's calendar validation (missing fields default
to 1900-01-01 as in `strptime`; every format in the list sets all
three). -/
def tryFmt (fmt : List FmtTok) (s : Str) : Option (Nat × Nat × Nat) :=
  match runFmt {} fmt s with
  | none => none
  | some pd =>
    let y := pd.y.getD 1900
    let m := pd.m.getD 1
    let d := pd.d.getD 1
    if 1 ≤ y && 1 ≤ m && m ≤ 12 && 1 ≤ d && d ≤ daysInMonth y m then
      some (y, m, d)
    else none

/-- The `date_formats` list of `parse_date`, in order:
`'%Y-%m-%d', '%Y/%m/%d', '%m/%d/%Y', '%d-%m-%Y', '%B %d, %Y',
'%b %d, %Y', '%d %B %Y', '%d %b %Y', '%d/%m/%Y', '%m-%d-%Y'`. -/
def dateFormats : List (List FmtTok) :=
  [ [.year4, .lit '-', .month2, .lit '-', .day2],
    [.year4, .lit '/', .month2, .lit '/', .day2],
    [.month2, .lit '/', .day2, .lit '/', .year4],
    [.day2, .lit '-', .month2, .lit '-', .year4],
    [.monthFull, .ws, .day2, .lit ',', .ws, .year4],
    [.monthAbbr, .ws, .day2, .lit ',', .ws, .year4],
    [.day2, .ws, .monthFull, .ws, .year4],
    [.day2, .ws, .monthAbbr, .ws, .year4],
    [.day2, .lit '/', .month2, .lit '/', .year4],
    [.month2, .lit '-', .day2, .lit '-', .year4] ]

/-- The `for fmt in date_formats` loop: keep the first format that
parses. -/
def tryFormats (s : Str) : Option (Nat × Nat × Nat) :=
  dateFormats.findSome? (fun f => tryFmt f s)

/-- intent_handlers.py lines 305-364, `parse_date`: normalize, handle
`'tomorrow'` and `'next <weekday>'`, then the format list, falling
back to today + 7 days; always returns a `YYYY-MM-DD` string (the
function is total — the source's enclosing `try/except` also falls
back to today + 7, a branch no input reaches in this model). -/
def parse_date (today : Nat) (dateStr : Str) : Str :=
  let ds := lowerStr (trimStr dateStr)
  if ds = strL "tomorrow" then formatISO (today + 1)
  else if (strL "next ").isPrefixOf ds then
    let dayName := trimStr (ds.drop 5)
    match findDayIdx dayName with
    | some idx => formatISO (next_weekday_from today idx)
    | none => formatISO (today + 7)
  else
    match tryFormats ds with
    | some (y, m, d) => formatYMD y m d
    | none => formatISO (today + 7)

/-! ## Action dictionaries and entities

Handlers return lists of JSON-like dicts; `RawAction` carries the
union of the keys the handlers emit (`None` = key absent).  The
external JSON key `"from"` is stored in the field `fromCity` and
`"to"` in `toCity`. -/

/-- One raw action dictionary. -/
structure RawAction where
  action : Option Str := none
  value : Option Str := none
  selector : Option Str := none
  key : Option Str := none
  filename : Option Str := none
  fromCity : Option Str := none
  toCity : Option Str := none
  date : Option Str := none
  timeout : Option Int := none
deriving DecidableEq

/-- The entity dict produced by `detect_intent` (absent keys are
`none` / `false`). -/
structure Entities where
  platform : Option Str := none
  screenshot : Bool := false
  website : Option Str := none
deriving DecidableEq

/-! ## Token-level regex machinery

All command regexes alternate fixed words, `\s+` separators, greedy
optional groups and lazy/greedy captures, so on a whitespace-separated
command every group boundary falls on a token boundary.  A literal
word preceded by `\s+` (or by the match start via `re.search`) and
followed by `\s+` is a whole token; a literal word at the very start
of the pattern may be preceded by unmatched text inside the same
token, i.e. it matches any token having it as a suffix.  Candidate
splits are generated in the engine's preference order (lazy captures:
shortest first; greedy optionals: with the group first). -/

/-- All splits `tokens = pre ++ post` with `pre` non-empty, shortest
`pre` first (the expansion order of a lazy `(.+?)`). -/
def splitsAsc : List Str → List (List Str × List Str)
  | [] => []
  | t :: rest => ([t], rest) :: (splitsAsc rest).map (fun p => (t :: p.1, p.2))

/-- Lazy capture up to a fixed separator token: all `(group, after)`
with `tokens = group ++ [sep] ++ after`, shortest group first. -/
def captureUntilTok (sep : Str) (tokens : List Str) : List (List Str × List Str) :=
  (splitsAsc tokens).filterMap (fun p =>
    match p.2 with
    | s :: rest => if s = sep then some (p.1, rest) else none
    | [] => none)

/-- A greedy optional literal token (`(?:word\s+)?` / `(?:\s+word)?`):
continuations in preference order - consuming the word first. -/
def optTok (w : Str) (ts : List Str) : List (List Str) :=
  match ts with
  | t :: rest => if t = w then [rest, ts] else [ts]
  | [] => [ts]

/-- `flights?` as a whole token. -/
def flightTok (t : Str) : Bool := t = strL "flight" || t = strL "flights"

/-- A greedy optional `(?:\s+flights?)?`. -/
def optFlightTok (ts : List Str) : List (List Str) :=
  match ts with
  | t :: rest => if flightTok t then [rest, ts] else [ts]
  | [] => [ts]

/-- Leading `(?:search|book|find)` of patterns 1 and 2: the verb ends
a token (text before the `re.search` match start may share the
token). -/
def verbTokSBF (t : Str) : Bool :=
  (strL "search").isSuffixOf t || (strL "book").isSuffixOf t ||
    (strL "find").isSuffixOf t

/-- The date separator `(?:\s+on\s+|\s+for\s+|\s+date\s*:?\s*)` of
patterns 2-4, applied to the tokens following the lazy second capture:
candidate token lists for the final `(.+)` capture, in alternation
order.  Because `\s*:?\s*` can match the empty string, a token
starting with `date` can glue the colon and the beginning of the
capture. -/
def dateSepG3 (post : List Str) : List (List Str) :=
  match post with
  | [] => []
  | t :: rest =>
    (if t = strL "on" then [rest] else []) ++
    (if t = strL "for" then [rest] else []) ++
    (if (strL "date").isPrefixOf t then
      let tail := t.drop 4
      if tail = [] then
        match rest with
        | c :: r2 => if c = strL ":" then [r2] else [rest]
        | [] => [rest]
      else
        let tail2 := if tail.head? = some ':' then tail.drop 1 else tail
        if tail2 = [] then [rest] else [tail2 :: rest]
    else [])

/-- Tail of patterns 2-4: `(.+?)(?:sep)(.+)` — lazy capture, date
separator, non-empty greedy rest. -/
def g2SepG3 (afterTo : List Str) : Option (Str × Str) :=
  (splitsAsc afterTo).findSome? (fun p =>
    (dateSepG3 p.2).findSome? (fun g3 =>
      if g3 ≠ [] then some (joinWs p.1, joinWs g3) else none))

/-- Pattern 1 after the verb token:
`(?:for\s+)?(?:a\s+)?flights?\s+from\s+(.+?)\s+to\s+(.+?)\s+(.+)`. -/
def p1After (ts : List Str) : Option (Str × Str × Str) :=
  (optTok (strL "for") ts).findSome? (fun ts1 =>
    (optTok (strL "a") ts1).findSome? (fun ts2 =>
      match ts2 with
      | f :: fr :: rest =>
        if flightTok f && fr = strL "from" then
          (captureUntilTok (strL "to") rest).findSome? (fun g =>
            (splitsAsc g.2).findSome? (fun q =>
              if q.2 ≠ [] then some (joinWs g.1, joinWs q.1, joinWs q.2) else none))
        else none
      | _ => none))

/-- Pattern 1: `(?:search|book|find)\s+(?:for\s+)?(?:a\s+)?flights?\s+
from\s+(.+?)\s+to\s+(.+?)\s+(.+)` (leftmost match). -/
def matchP1 : List Str → Option (Str × Str × Str)
  | [] => none
  | t :: rest =>
    (if verbTokSBF t then p1After rest else none) <|> matchP1 rest

/-- Pattern 2 after the verb token: `(?:\s+for)?(?:\s+a)?
(?:\s+flights?)?(?:\s+from)\s+(.+?)\s+to\s+(.+?)(?:sep)(.+)`. -/
def p2After (ts : List Str) : Option (Str × Str × Str) :=
  (optTok (strL "for") ts).findSome? (fun ts1 =>
    (optTok (strL "a") ts1).findSome? (fun ts2 =>
      (optFlightTok ts2).findSome? (fun ts3 =>
        match ts3 with
        | fr :: rest =>
          if fr = strL "from" then
            (captureUntilTok (strL "to") rest).findSome? (fun g =>
              (g2SepG3 g.2).map (fun q => (joinWs g.1, q.1, q.2)))
          else none
        | [] => none)))

/-- Pattern 2: `(?:search|book|find)(?:\s+for)?(?:\s+a)?(?:\s+flights?)?
(?:\s+from)\s+(.+?)\s+to\s+(.+?)(?:\s+on\s+|\s+for\s+|\s+date\s*:?\s*)(.+)`. -/
def matchP2 : List Str → Option (Str × Str × Str)
  | [] => none
  | t :: rest =>
    (if verbTokSBF t then p2After rest else none) <|> matchP2 rest

/-- Head alternation of pattern 3 (`i want to fly` / `i need a flight`
/ `i would like to book`); yields the tokens after the phrase. -/
def p3Head (t : Str) (rest : List Str) : Option (List Str) :=
  if (strL "i").isSuffixOf t then
    (if rest.take 3 = [strL "want", strL "to", strL "fly"] then some (rest.drop 3) else none) <|>
    (if rest.take 3 = [strL "need", strL "a", strL "flight"] then some (rest.drop 3) else none) <|>
    (if rest.take 4 = [strL "would", strL "like", strL "to", strL "book"] then some (rest.drop 4) else none)
  else none

/-- Pattern 3 body after the head phrase:
`(?:\s+from)?\s+(.+?)\s+to\s+(.+?)(?:sep)(.+)`. -/
def p3After (ts : List Str) : Option (Str × Str × Str) :=
  (optTok (strL "from") ts).findSome? (fun ts1 =>
    (captureUntilTok (strL "to") ts1).findSome? (fun g =>
      (g2SepG3 g.2).map (fun q => (joinWs g.1, q.1, q.2))))

/-- Pattern 3: `(?:i\s+want\s+to\s+fly|i\s+need\s+a\s+flight|
i\s+would\s+like\s+to\s+book)(?:\s+from)?\s+(.+?)\s+to\s+(.+?)(?:sep)(.+)`. -/
def matchP3 : List Str → Option (Str × Str × Str)
  | [] => none
  | t :: rest =>
    ((p3Head t rest).bind p3After) <|> matchP3 rest

/-- Leading `(?:fly|flights?|trip)` of pattern 4 (token suffix). -/
def verbTokP4 (t : Str) : Bool :=
  (strL "fly").isSuffixOf t || (strL "flight").isSuffixOf t ||
    (strL "flights").isSuffixOf t || (strL "trip").isSuffixOf t

/-- Pattern 4: `(?:fly|flights?|trip)\s+from\s+(.+?)\s+to\s+(.+?)
(?:sep)(.+)`. -/
def matchP4 : List Str → Option (Str × Str × Str)
  | [] => none
  | t :: rest =>
    (if verbTokP4 t then
      match rest with
      | fr :: rest2 =>
        if fr = strL "from" then
          (captureUntilTok (strL "to") rest2).findSome? (fun g =>
            (g2SepG3 g.2).map (fun q => (joinWs g.1, q.1, q.2)))
        else none
      | [] => none
    else none) <|> matchP4 rest

/-! ## Intent handlers (src/agents/intent_handlers.py) -/

/-- intent_handlers.py lines 15-41, `handle_navigate`: strip the
trigger phrases as raw substrings, then resolve via `WEBSITE_MAP`, an
absolute http(s) URL, or a default `https://www.` prefix. -/
def handle_navigate (command : Str) (_entities : Entities) : List RawAction :=
  let urlPart := trimStr (removeAllList command
    [strL "go to", strL "navigate to", strL "open", strL "visit"])
  let url :=
    match lookupStr websiteMap (lowerStr urlPart) with
    | some u => u
    | none =>
      if (strL "http://").isPrefixOf urlPart || (strL "https://").isPrefixOf urlPart then
        urlPart
      else strL "https://www." ++ urlPart
  [{ action := some (strL "goto"), value := some url }]

/-- intent_handlers.py lines 44-86, `handle_search`. -/
def handle_search (command : Str) (entities : Entities) : List RawAction :=
  let website := entities.website.getD (strL "google")
  let takeShot := entities.screenshot
  let searchTerm := removeAllList command
    [strL "search for", strL "search", strL "find", strL "look for",
     strL "look up", strL "on google", strL "google"]
  let searchTerm :=
    if takeShot then
      removeAllList searchTerm
        [strL "and take a screenshot", strL "take a screenshot", strL "screenshot"]
    else searchTerm
  let searchTerm := trimStr searchTerm
  let sel := (lookupStr websiteConfigsSearch website).getD
    (strL "textarea[name=\x27q\x27]")
  let url := (lookupStr websiteMap website).getD (strL "https://www.google.com")
  [{ action := some (strL "goto"), value := some url },
   { action := some (strL "fill"), selector := some sel, value := some searchTerm },
   { action := some (strL "press"), selector := some sel, key := some (strL "Enter") }] ++
    (if takeShot then
      [{ action := some (strL "screenshot"), filename := some (strL "search_results.png") }]
    else [])

/-- intent_handlers.py lines 89-115, `handle_play`: always targets
YouTube. -/
def handle_play (command : Str) (_entities : Entities) : List RawAction :=
  let searchTerm := trimStr (removeAllList command
    [strL "play", strL "watch", strL "listen to", strL "search youtube for",
     strL "find on youtube", strL "on youtube"])
  let sel := strL "input[name=\x27search_query\x27]"
  [{ action := some (strL "goto"), value := some (strL "https://www.youtube.com") },
   { action := some (strL "fill"), selector := some sel, value := some searchTerm },
   { action := some (strL "press"), selector := some sel, key := some (strL "Enter") },
   { action := some (strL "wait"), timeout := some 3000 },
   { action := some (strL "click"), selector := some youtubeFirstVideoSelector }]

/-- Token-level match of the fill regex
`(?:fill|enter|input|type\s+in)\s+(?:the\s+)?(.+?)\s+with\s+(.+)`. -/
def matchFill : List Str → Option (Str × Str)
  | [] => none
  | t :: rest =>
    (let heads :=
      (if (strL "fill").isSuffixOf t || (strL "enter").isSuffixOf t ||
          (strL "input").isSuffixOf t then [rest] else []) ++
      (if (strL "type").isSuffixOf t && rest.head? = some (strL "in") then
        [rest.drop 1] else [])
    heads.findSome? (fun ts =>
      (optTok (strL "the") ts).findSome? (fun ts1 =>
        (captureUntilTok (strL "with") ts1).findSome? (fun g =>
          if g.2 ≠ [] then some (joinWs g.1, joinWs g.2) else none)))) <|>
    matchFill rest

/-- intent_handlers.py lines 118-141, `handle_fill`. -/
def handle_fill (command : Str) (_entities : Entities) : List RawAction :=
  match matchFill (splitWs command) with
  | none => []
  | some (f, v) =>
    let field := trimStr f
    let value := trimStr v
    let sel := (lookupStr fieldSelectorMap (lowerStr field)).getD
      (strL "input[name=\x27" ++ field ++ strL "\x27], textarea[name=\x27" ++
        field ++ strL "\x27]")
    [{ action := some (strL "fill"), selector := some sel, value := some value }]

/-- Token-level match of the click regex
`(?:click|press|tap)\s+(?:the\s+)?(.+)`. -/
def matchClick : List Str → Option Str
  | [] => none
  | t :: rest =>
    (if (strL "click").isSuffixOf t || (strL "press").isSuffixOf t ||
        (strL "tap").isSuffixOf t then
      (optTok (strL "the") rest).findSome? (fun ts =>
        if ts ≠ [] then some (joinWs ts) else none)
    else none) <|> matchClick rest

/-- intent_handlers.py lines 144-170, `handle_click`: `'first' in
command` short-circuits to a `click_result` action. -/
def handle_click (command : Str) (_entities : Entities) : List RawAction :=
  if containsSub command (strL "first") then
    [{ action := some (strL "click_result") }]
  else
    match matchClick (splitWs command) with
    | none => []
    | some e =>
      let element := trimStr e
      let sel := (lookupStr elementSelectorMap (lowerStr element)).getD
        (strL "button, input[type=\x27button\x27], a[href*=\x27" ++ element ++
          strL "\x27]")
      [{ action := some (strL "click"), selector := some sel }]

/-- Token-level match of the press regex
`press\s+(.+?)(?:\s+in|\s+on)\s+(?:the\s+)?(.+)`. -/
def matchPress : List Str → Option (Str × Str)
  | [] => none
  | t :: rest =>
    (if (strL "press").isSuffixOf t then
      (splitsAsc rest).findSome? (fun p =>
        match p.2 with
        | s :: r2 =>
          if s = strL "in" || s = strL "on" then
            (optTok (strL "the") r2).findSome? (fun r3 =>
              if r3 ≠ [] then some (joinWs p.1, joinWs r3) else none)
          else none
        | [] => none)
    else none) <|> matchPress rest

/-- intent_handlers.py lines 173-196, `handle_press_key`. -/
def handle_press_key (command : Str) (_entities : Entities) : List RawAction :=
  match matchPress (splitWs command) with
  | none => []
  | some (k, f) =>
    let key := trimStr k
    let field := trimStr f
    let sel := (lookupStr fieldSelectorMap (lowerStr field)).getD
      (strL "input[name=\x27" ++ field ++ strL "\x27], textarea[name=\x27" ++
        field ++ strL "\x27]")
    [{ action := some (strL "press"), selector := some sel, key := some key }]

/-- The unit alternation `(ms|milliseconds|seconds|sec|s)`, first
alternative that is a prefix of the remaining text. -/
def unitNames : List Str :=
  [strL "ms", strL "milliseconds", strL "seconds", strL "sec", strL "s"]

/-- Leading digit run of a token (`(\d+)` anchored after whitespace):
value and the rest of the token. -/
def digitsPrefix (t : Str) : Option (Nat × Str) :=
  let ds := t.takeWhile isDigitChar
  if ds = [] then none
  else some (ds.foldl (fun acc c => 10 * acc + dVal c) 0, t.drop ds.length)

/-- Token-level match of the wait regex `(?:wait|pause|delay)\s+
(?:for\s+)?(\d+)(?:\s*(ms|milliseconds|seconds|sec|s))?`: the digits
open a token; the unit, if any, is glued to the digits or starts the
next token. -/
def matchWait : List Str → Option (Nat × Option Str)
  | [] => none
  | t :: rest =>
    (if (strL "wait").isSuffixOf t || (strL "pause").isSuffixOf t ||
        (strL "delay").isSuffixOf t then
      (optTok (strL "for") rest).findSome? (fun ts =>
        match ts with
        | n :: r2 =>
          match digitsPrefix n with
          | some (v, tail) =>
            let unit :=
              if tail ≠ [] then unitNames.find? (fun u => u.isPrefixOf tail)
              else
                match r2 with
                | u2 :: _ => unitNames.find? (fun u => u.isPrefixOf u2)
                | [] => none
            some (v, unit)
          | none => none
        | [] => none)
    else none) <|> matchWait rest

/-- intent_handlers.py lines 199-225, `handle_wait`: units starting
with `s` mean seconds (× 1000), otherwise the value is taken as
milliseconds. -/
def handle_wait (command : Str) (_entities : Entities) : List RawAction :=
  match matchWait (splitWs command) with
  | none => []
  | some (v, unit) =>
    let timeout : Int :=
      match unit with
      | some u => if u.head? = some 's' then (v : Int) * 1000 else (v : Int)
      | none => (v : Int)
    [{ action := some (strL "wait"), timeout := some timeout }]

/-- Token-level match of the screenshot regex
`(?:screenshot|capture)\s+(?:of\s+)?(.+)`. -/
def matchShot : List Str → Option Str
  | [] => none
  | t :: rest =>
    (if (strL "screenshot").isSuffixOf t || (strL "capture").isSuffixOf t then
      (optTok (strL "of") rest).findSome? (fun ts =>
        if ts ≠ [] then some (joinWs ts) else none)
    else none) <|> matchShot rest

/-- intent_handlers.py lines 228-251, `handle_screenshot`: on a match
the captured text is stripped of the raw substrings `and`, `take`,
`a`, `the` (in that order) and trimmed; otherwise the filename
defaults to `screenshot.png`. -/
def handle_screenshot (command : Str) (_entities : Entities) : List RawAction :=
  let filename :=
    match matchShot (splitWs command) with
    | some g =>
      trimStr (removeAllList (trimStr g) [strL "and", strL "take", strL "a", strL "the"])
    | none => strL "screenshot.png"
  [{ action := some (strL "screenshot"), filename := some filename }]

/-- intent_handlers.py lines 254-302, `handle_book_flight`: the four
patterns are tried in order; the city captures are trimmed,
whitespace-normalized and mapped through `CITY_MAPPING`; the date
capture goes through `parse_date`. -/
def handle_book_flight (today : Nat) (command : Str) (_entities : Entities) :
    List RawAction :=
  let toks := splitWs command
  match matchP1 toks <|> matchP2 toks <|> matchP3 toks <|> matchP4 toks with
  | none => []
  | some (g1, g2, g3) =>
    let fromCity := trimStr (normWs (trimStr g1))
    let toCity := trimStr (normWs (trimStr g2))
    let dateStr := trimStr g3
    let fromCity := (lookupStr cityMapping (lowerStr fromCity)).getD fromCity
    let toCity := (lookupStr cityMapping (lowerStr toCity)).getD toCity
    [{ action := some (strL "book_flight"), fromCity := some fromCity,
       toCity := some toCity, date := some (parse_date today dateStr) }]

/-! ## Intent detection and the compiler entry point
(src/agents/intent_parser_v2.py) -/

/-- intent_parser_v2.py lines 149-162, `extract_website`: first
`WEBSITE_MAP` key (declaration order) occurring in the command. -/
def extract_website (command : Str) : Option Str :=
  (websiteMap.find? (fun p => containsSub command p.1)).map (·.1)

/-- intent_parser_v2.py lines 68-146, `detect_intent`: the
priority-ordered keyword tests; booking first, then play, then the
screenshot co-flag, search, navigate, fill, click, press-key, wait,
screenshot-only. -/
def detect_intent (command : Str) : Option String × Entities :=
  if anyKw command kwBookFlight then (some "book_flight", {})
  else if (containsSub command (strL "from") && containsSub command (strL "to")) &&
      [strL "flight", strL "fly", strL "trip"].any (containsSub command) then
    (some "book_flight", {})
  else if anyKw command kwPlay then
    (some "play",
      { platform :=
          if containsSub command (strL "youtube") || containsSub command (strL "video") then
            some (strL "youtube")
          else none })
  else
    let hasShot := anyKw command kwScreenshot
    if anyKw command kwSearch then
      (some "search", { screenshot := hasShot, website := extract_website command })
    else if anyKw command kwNavigate then
      (some "navigate", { screenshot := hasShot, website := extract_website command })
    else if anyKw command kwFill && containsSub command (strL "with") then
      (some "fill", { screenshot := hasShot })
    else if anyKw command kwClick then
      (some "click", { screenshot := hasShot })
    else if containsSub command (strL "press") && containsSub command (strL "in") then
      (some "press_key", { screenshot := hasShot })
    else if anyKw command kwWait then
      (some "wait", { screenshot := hasShot })
    else if hasShot then
      (some "screenshot", { screenshot := true })
    else (none, {})

/-- The `HANDLER_REGISTRY` dispatch (intent_handlers.py lines
367-378); an unregistered intent produces no plan. -/
def runHandler (today : Nat) (intent : String) (command : Str)
    (entities : Entities) : List RawAction :=
  match intent with
  | "navigate" => handle_navigate command entities
  | "search" => handle_search command entities
  | "play" => handle_play command entities
  | "fill" => handle_fill command entities
  | "click" => handle_click command entities
  | "press_key" => handle_press_key command entities
  | "wait" => handle_wait command entities
  | "screenshot" => handle_screenshot command entities
  | "book_flight" => handle_book_flight today command entities
  | _ => []

/-- intent_parser_v2.py lines 20-65, `parse_command`: reject blank
input, lowercase and strip, detect the intent, dispatch to the
handler, and turn an empty plan into `none`. -/
def parse_command (today : Nat) (command : Str) : Option (List RawAction) :=
  if trimStr command = [] then none
  else
    let cl := trimStr (lowerStr command)
    match detect_intent cl with
    | (none, _) => none
    | (some intent, entities) =>
      match runHandler today intent cl entities with
      | [] => none
      | actions => some actions

/-! ## Action schema validation (src/agents/models.py) -/

/-- A validated action (the `Action` union of models.py). -/
inductive Action where
  | goto (value : Str)
  | fill (selector value : Str)
  | click (selector : Str)
  | press (selector key : Str)
  | clickResult
  | screenshot (filename : Str)
  | bookFlight (fromCity toCity date : Str)
  | wait (timeout : Int)
deriving DecidableEq

/-- The word-character class of `r'^[\w\-. ]+$'` (ASCII `\w` plus
hyphen, dot, space; the program only produces ASCII filenames). -/
def isFilenameChar (c : Char) : Bool :=
  ('a' ≤ c && c ≤ 'z') || ('A' ≤ c && c ≤ 'Z') ||
    ('0' ≤ c && c ≤ '9') || c = '_' || c = '-' || c = '.' || c = ' '

/-- models.py lines 18-22, `GotoAction.validate_url`: the URL must
start with `http://` or `https://` and is returned unchanged. -/
def schemeOk (v : Str) : Bool :=
  (strL "http://").isPrefixOf v || (strL "https://").isPrefixOf v

/-- models.py lines 50-56, `ScreenshotAction.validate_filename`:
append `.png` when missing, then require every character to be in
`[\w\-. ]` (the anchored pattern must cover the whole name; since the
name ends in `g`, the `$`-before-final-newline subtlety of Python
regexes cannot arise). -/
def validate_filename (v : Str) : Except String Str :=
  let v1 := if (strL ".png").isSuffixOf v then v else v ++ strL ".png"
  if !v1.isEmpty && v1.all isFilenameChar then Except.ok v1
  else Except.error "Filename contains invalid characters"

/-- models.py lines 65-72, `BookFlightAction.validate_date`:
`date.fromisoformat` — exactly `YYYY-MM-DD` with a valid calendar
date. -/
def isoDateOk (s : Str) : Bool :=
  match s with
  | [y1, y2, y3, y4, '-', m1, m2, '-', d1, d2] =>
    if isDigitChar y1 && isDigitChar y2 && isDigitChar y3 && isDigitChar y4 &&
        isDigitChar m1 && isDigitChar m2 && isDigitChar d1 && isDigitChar d2 then
      let y := 1000 * dVal y1 + 100 * dVal y2 + 10 * dVal y3 + dVal y4
      let m := 10 * dVal m1 + dVal m2
      let d := 10 * dVal d1 + dVal d2
      1 ≤ y && 1 ≤ m && m ≤ 12 && 1 ≤ d && d ≤ daysInMonth y m
    else false
  | _ => false

/-- Construct and validate one typed action from a raw dictionary
(the `model(**action_data)` call; pydantic ignores extra keys,
requires the declared fields, and runs the field validators;
`WaitAction.timeout` defaults to 1000). -/
def buildAction (t : Str) (a : RawAction) : Except String Action :=
  if t = strL "goto" then
    match a.value with
    | none => Except.error "value: field required"
    | some v =>
      if schemeOk v then Except.ok (Action.goto v)
      else Except.error "URL must start with http or https"
  else if t = strL "fill" then
    match a.selector, a.value with
    | some s, some v => Except.ok (Action.fill s v)
    | _, _ => Except.error "field required"
  else if t = strL "click" then
    match a.selector with
    | some s => Except.ok (Action.click s)
    | none => Except.error "selector: field required"
  else if t = strL "press" then
    match a.selector, a.key with
    | some s, some k => Except.ok (Action.press s k)
    | _, _ => Except.error "field required"
  else if t = strL "click_result" then Except.ok Action.clickResult
  else if t = strL "screenshot" then
    match a.filename with
    | none => Except.error "filename: field required"
    | some f =>
      match validate_filename f with
      | Except.ok f1 => Except.ok (Action.screenshot f1)
      | Except.error e => Except.error e
  else if t = strL "book_flight" then
    match a.fromCity, a.toCity, a.date with
    | some f, some tc, some d =>
      if isoDateOk d then Except.ok (Action.bookFlight f tc d)
      else Except.error "Date must be in YYYY-MM-DD format"
    | _, _, _ => Except.error "field required"
  else if t = strL "wait" then
    Except.ok (Action.wait (a.timeout.getD 1000))
  else Except.error "unreachable action type"

/-- models.py lines 96-121: per-index dispatch of one raw action —
missing/empty `action` key, unknown action type, or a model
construction error (wrapped with the index). -/
def checkAction (i : Nat) (a : RawAction) : Except String Action :=
  match a.action with
  | none => Except.error ("Action at index " ++ Nat.repr i ++ " missing action field")
  | some t =>
    if t = [] then
      Except.error ("Action at index " ++ Nat.repr i ++ " missing action field")
    else if t = strL "goto" || t = strL "fill" || t = strL "click" ||
        t = strL "press" || t = strL "click_result" || t = strL "screenshot" ||
        t = strL "book_flight" || t = strL "wait" then
      match buildAction t a with
      | Except.ok act => Except.ok act
      | Except.error e =>
        Except.error ("Invalid action at index " ++ Nat.repr i ++ ": " ++ e)
    else Except.error ("Unknown action type at index " ++ Nat.repr i)

/-- The `for i, action_data in enumerate(actions_data)` loop: the
first invalid action aborts the whole validation. -/
def validateAll (i : Nat) : List RawAction → Except String (List Action)
  | [] => Except.ok []
  | a :: rest =>
    match checkAction i a with
    | Except.error e => Except.error e
    | Except.ok act =>
      match validateAll (i + 1) rest with
      | Except.error e => Except.error e
      | Except.ok acts => Except.ok (act :: acts)

/-- models.py lines 81-123, `validate_actions`. -/
def validate_actions (l : List RawAction) : Except String (List Action) :=
  validateAll 0 l

/-! ## Resilient executor (src/Automation/browser_executor.py)

The live browser is external: a runner `Action → Except String Unit`
stands for the per-action-type dispatch of the loop body (lines
73-286), with `Except.error` standing for any exception the dispatch
raises against the session. -/

/-- Per-action outcome as reported by the loop (line 284 prints the
failure and falls through to the next iteration). -/
inductive Outcome where
  | success
  | failed (reason : String)
deriving DecidableEq

/-- One iteration of the `for action in actions` loop: the inner
`try/except` turns a raised exception into a recorded failure. -/
def runOne (runner : Action → Except String Unit) (a : Action) : Outcome :=
  match runner a with
  | Except.ok _ => Outcome.success
  | Except.error e => Outcome.failed e

/-- The whole action loop: every action is attempted, in order. -/
def run_actions (runner : Action → Except String Unit) : List Action → List Outcome
  | [] => []
  | a :: rest => runOne runner a :: run_actions runner rest

/-- Observable of one `execute_actions` call. -/
structure ExecTrace where
  /-- An exception propagated out of `execute_actions` to its caller
  (browser-launch failures aside, the function returns normally). -/
  raisedToCaller : Option String
  /-- The validation error printed by lines 32-33 (`❌ Invalid action
  plan`), if any. -/
  printedError : Option String
  /-- Whether a browser session was opened (lines 36-67 run only after
  validation succeeded). -/
  sessionOpened : Bool
  /-- Outcomes of the attempted actions, in plan order. -/
  outcomes : List Outcome
deriving DecidableEq

/-- browser_executor.py lines 15-297, `execute_actions`: validate
first; on a `ValueError` print the message and return (the error is
caught, not re-raised); otherwise open the session and run every
action, continuing past per-action failures. -/
def execute_actions (runner : Action → Except String Unit)
    (actionsData : List RawAction) : ExecTrace :=
  match validate_actions actionsData with
  | Except.error e =>
    { raisedToCaller := none, printedError := some e,
      sessionOpened := false, outcomes := [] }
  | Except.ok acts =>
    { raisedToCaller := none, printedError := none,
      sessionOpened := true, outcomes := run_actions runner acts }

/-! ## Booking-flow city suggestions (src/Automation/make_my_trip.py) -/

/-- One option of the autocomplete list: visibility and text content
(`text_content()` may be `None`). -/
structure Suggestion where
  visible : Bool
  text : Option Str
deriving DecidableEq

/-- make_my_trip.py lines 487-494: the matching patterns, in order —
the normalized city text, the part before a comma, the part before a
parenthesis, the first word.  `city_lower.split()[0]` raises
`IndexError` on whitespace-only input; the surrounding `try` catches
it and the selection reports no match, modelled by `none`. -/
def cityPatterns (city : Str) : Option (List Str) :=
  let cl := lowerStr (trimStr city)
  match splitWs cl with
  | [] => none
  | w :: _ =>
    some [cl, trimStr (cl.takeWhile (fun c => c ≠ ',')),
      trimStr (cl.takeWhile (fun c => c ≠ '(')), w]

/-- make_my_trip.py lines 497-516, the per-option test: visible, with
non-empty text, whose normalized text contains some non-empty
pattern. -/
def optMatch (pats : List Str) (s : Suggestion) : Bool :=
  s.visible &&
    match s.text with
    | none => false
    | some t =>
      t ≠ [] &&
        pats.any (fun p => p ≠ [] && containsSub (lowerStr (trimStr t)) p)

/-- The per-option test with the pattern computation folded in (false
when computing the patterns raises). -/
def optionScore (city : Str) (s : Suggestion) : Bool :=
  match cityPatterns city with
  | none => false
  | some pats => optMatch pats s

/-- make_my_trip.py lines 467-527, `_select_city_from_suggestions`:
scan at most the first ten options top-to-bottom and select the first
that matches any pattern; `none` = returned `False` (no match, or the
pattern computation raised). -/
def select_city_from_suggestions (city : Str) (opts : List Suggestion) :
    Option Nat :=
  match cityPatterns city with
  | none => none
  | some pats => findIdxL (optMatch pats) (opts.take 10)

/-- make_my_trip.py lines 273-282 (`_set_departure_city`; lines
385-394 of `_set_destination_city` are identical): when the
suggestion matcher reports no match, click the first listed option.
Clicking `.first` of an empty option list raises instead, and the
stage's fallback-to-Enter path runs — modelled as `none`. -/
def stage_select_city (city : Str) (opts : List Suggestion) : Option Nat :=
  match select_city_from_suggestions city opts with
  | some i => some i
  | none =>
    match opts with
    | [] => none
    | _ :: _ => some 0

/-! ## Helper lemmas -/

/-- The `next <weekday>` arithmetic lands on the requested weekday. -/
theorem pyWeekday_next_weekday_from (today dayIdx : Nat) (h : dayIdx < 7) :
    pyWeekday (next_weekday_from today dayIdx) = dayIdx := by
  simp only [next_weekday_from, pyWeekday]
  split <;> omega

/-- The `next <weekday>` arithmetic is strictly in the future. -/
theorem lt_next_weekday_from (today dayIdx : Nat) :
    today < next_weekday_from today dayIdx := by
  simp only [next_weekday_from]
  split <;> omega

/-- When today already is the requested weekday, a full week is
added. -/
theorem next_weekday_from_of_eq (today dayIdx : Nat)
    (h : pyWeekday today = dayIdx) :
    next_weekday_from today dayIdx = today + 7 := by
  simp only [next_weekday_from, pyWeekday] at h ⊢
  split <;> omega

/-- `findIdxL` finds nothing when no element satisfies the
predicate. -/
theorem findIdxL_eq_none {α : Type} (p : α → Bool) (l : List α)
    (h : ∀ x ∈ l, p x = false) : findIdxL p l = none := by
  induction l with
  | nil => rfl
  | cons x xs ih =>
    simp only [findIdxL, h x (List.mem_cons_self x xs)]
    simp [ih (fun y hy => h y (List.mem_cons_of_mem x hy))]

/-- The executor loop is a map over the plan: every action gets an
outcome. -/
theorem run_actions_eq_map (runner : Action → Except String Unit)
    (l : List Action) : run_actions runner l = l.map (runOne runner) := by
  induction l with
  | nil => rfl
  | cons a rest ih => simp [run_actions, ih]

/-- `.png` is a suffix of anything it was appended to. -/
theorem png_isSuffixOf_append (v : Str) :
    (strL ".png").isSuffixOf (v ++ strL ".png") = true :=
  List.isSuffixOf_iff_suffix.mpr (List.suffix_append v (strL ".png"))

/-! ## Claim theorems -/

/-- Claim C1: every command containing one of the booking keyword
phrases (`book flight`, `book a flight`, `search flight`,
`find flight`, `fly from`) is classified as `book_flight` by
`detect_intent` — unconditionally, hence in particular also when the
command contains generic search or navigation keywords, because the
booking test is the first of the priority chain. -/
theorem booking_keyword_classifies_book_flight (command : Str)
    (h : anyKw command kwBookFlight = true) :
    (detect_intent command).1 = some "book_flight" := by
  unfold detect_intent
  rw [if_pos h]

/-- Witness for C1: a command holding both a booking phrase and the
generic `search` / `go to` keywords is still classified as
`book_flight`. -/
theorem booking_keyword_classifies_book_flight_witness :
    (detect_intent (strL "search flight and go to google")).1 =
      some "book_flight" :=
  booking_keyword_classifies_book_flight
    (strL "search flight and go to google") (by decide)

/-- Claim C2: for every value of today, compiling
`book a flight from nyc to london next monday` produces exactly one
action: a book-flight record whose origin is `New York` (via the
city-alias entry for `nyc`), whose destination is `London`, and whose
date is the ISO rendering of the next Monday strictly after today. -/
theorem book_flight_nyc_london_end_to_end (today : Nat) :
    parse_command today
        (strL "book a flight from nyc to london next monday") =
      some [{ action := some (strL "book_flight"),
              fromCity := some (strL "New York"),
              toCity := some (strL "London"),
              date := some (formatISO (next_weekday_from today 0)) }] ∧
    pyWeekday (next_weekday_from today 0) = 0 ∧
    today < next_weekday_from today 0 :=
  ⟨rfl, pyWeekday_next_weekday_from today 0 (by omega),
    lt_next_weekday_from today 0⟩

/-- Witness for C2 at today = 4 (1970-01-05, a Monday): the plan's
date is day 11 = 1970-01-12. -/
theorem book_flight_nyc_london_end_to_end_witness :
    parse_command 4 (strL "book a flight from nyc to london next monday") =
      some [{ action := some (strL "book_flight"),
              fromCity := some (strL "New York"),
              toCity := some (strL "London"),
              date := some (formatISO (next_weekday_from 4 0)) }] ∧
    pyWeekday (next_weekday_from 4 0) = 0 ∧
    4 < next_weekday_from 4 0 :=
  book_flight_nyc_london_end_to_end 4

/-- Claim C3: for every value of today, `parse_date "next monday"`
returns (the ISO rendering of) a day whose Python weekday is Monday
(0) and which is strictly after today; when today itself is a Monday
the result is today + 7, never today. -/
theorem parse_date_next_monday_strictly_future (today : Nat) :
    parse_date today (strL "next monday") =
      formatISO (next_weekday_from today 0) ∧
    pyWeekday (next_weekday_from today 0) = 0 ∧
    today < next_weekday_from today 0 ∧
    (pyWeekday today = 0 → next_weekday_from today 0 = today + 7) :=
  ⟨rfl, pyWeekday_next_weekday_from today 0 (by omega),
    lt_next_weekday_from today 0, next_weekday_from_of_eq today 0⟩

/-- Witness for C3 at a concrete Monday: day 4 is 1970-01-05, a
Monday, and the parsed date is day 11 = 1970-01-12, one week later. -/
theorem parse_date_next_monday_strictly_future_witness :
    pyWeekday 4 = 0 ∧
    parse_date 4 (strL "next monday") = strL "1970-01-12" ∧
    next_weekday_from 4 0 = 4 + 7 := by
  have h := parse_date_next_monday_strictly_future 4
  exact ⟨by decide, by rw [h.1]; decide, h.2.2.2 (by decide)⟩

/-- Claim C4: `parse_date` is total by construction, and on any input
whose normal form is not `tomorrow`, is not a recognized
`next <weekday>` phrase, and is matched by none of the ten date
formats, it returns today + 7 days in `YYYY-MM-DD` form instead of
failing. -/
theorem parse_date_unparsable_falls_back_week_ahead (today : Nat) (s : Str)
    (h1 : lowerStr (trimStr s) ≠ strL "tomorrow")
    (h2 : (strL "next ").isPrefixOf (lowerStr (trimStr s)) = true →
      findDayIdx (trimStr ((lowerStr (trimStr s)).drop 5)) = none)
    (h3 : tryFormats (lowerStr (trimStr s)) = none) :
    parse_date today s = formatISO (today + 7) := by
  simp only [parse_date]
  rw [if_neg h1]
  by_cases hp : (strL "next ").isPrefixOf (lowerStr (trimStr s)) = true
  · rw [if_pos hp, h2 hp]
  · rw [if_neg hp, h3]

/-- Witness for C4: `"someday soon"` is unparsable and yields
today + 7 (day 107 for today = 100). -/
theorem parse_date_unparsable_falls_back_week_ahead_witness :
    parse_date 100 (strL "someday soon") = formatISO (100 + 7) :=
  parse_date_unparsable_falls_back_week_ahead 100 (strL "someday soon")
    (by decide) (by decide) (by decide)

/-- Claim C10: the navigate handler strips its trigger phrases as raw
substrings, so `visit openai.com` loses the `open` inside
`openai.com` and compiles to a Navigate action whose URL
`https://www.ai.com` no longer contains the mentioned domain. -/
theorem navigate_strips_trigger_substring_openai (today : Nat) :
    parse_command today (strL "visit openai.com") =
      some [{ action := some (strL "goto"),
              value := some (strL "https://www.ai.com") }] ∧
    containsSub (strL "https://www.ai.com") (strL "openai.com") = false :=
  ⟨rfl, by decide⟩

/-- Witness for C10 at a concrete today. -/
theorem navigate_strips_trigger_substring_openai_witness :
    parse_command 0 (strL "visit openai.com") =
      some [{ action := some (strL "goto"),
              value := some (strL "https://www.ai.com") }] ∧
    containsSub (strL "https://www.ai.com") (strL "openai.com") = false :=
  navigate_strips_trigger_substring_openai 0

/-- Claim C5: validating a goto action keeps a URL with an `http://`
or `https://` scheme exactly as given, and rejects a value without
such a scheme instead of coercing it — rejection happens if and only
if the scheme prefix is absent. -/
theorem goto_url_validation_exact_iff_scheme (v : Str) :
    (schemeOk v = true →
      validate_actions [{ action := some (strL "goto"), value := some v }] =
        Except.ok [Action.goto v]) ∧
    (schemeOk v = false →
      ∃ e, validate_actions [{ action := some (strL "goto"), value := some v }] =
        Except.error e) := by
  constructor
  · intro h
    simp +decide [validate_actions, validateAll, checkAction, buildAction, h]
  · intro h
    refine ⟨"Invalid action at index 0: URL must start with http or https", ?_⟩
    simp +decide [validate_actions, validateAll, checkAction, buildAction, h]

/-- Witness for C5: `https://x` passes unchanged, `x` is rejected. -/
theorem goto_url_validation_exact_iff_scheme_witness :
    validate_actions [{ action := some (strL "goto"),
                        value := some (strL "https://x") }] =
      Except.ok [Action.goto (strL "https://x")] ∧
    ∃ e, validate_actions [{ action := some (strL "goto"),
                             value := some (strL "x") }] = Except.error e :=
  ⟨(goto_url_validation_exact_iff_scheme (strL "https://x")).1 (by decide),
   (goto_url_validation_exact_iff_scheme (strL "x")).2 (by decide)⟩

/-- Claim C6: screenshot filename normalization maps both `shot` and
`shot.png` to `shot.png`, and is idempotent on every accepted input:
re-validating an already-validated filename returns it unchanged. -/
theorem screenshot_filename_normalization_idempotent :
    validate_filename (strL "shot") = Except.ok (strL "shot.png") ∧
    validate_filename (strL "shot.png") = Except.ok (strL "shot.png") ∧
    ∀ v w : Str, validate_filename v = Except.ok w →
      validate_filename w = Except.ok w := by
  refine ⟨by rfl, by rfl, ?_⟩
  intro v w h
  unfold validate_filename at h ⊢
  by_cases hall : (!((if (strL ".png").isSuffixOf v then v
      else v ++ strL ".png").isEmpty) &&
      (if (strL ".png").isSuffixOf v then v else v ++ strL ".png").all
        isFilenameChar) = true
  · rw [if_pos hall] at h
    have hw : (if (strL ".png").isSuffixOf v then v else v ++ strL ".png") = w :=
      by exact Except.ok.inj h
    have hsuffix : (strL ".png").isSuffixOf w = true := by
      by_cases hs : (strL ".png").isSuffixOf v = true
      · rw [← hw, if_pos hs]; exact hs
      · rw [← hw, if_neg hs]; exact png_isSuffixOf_append v
    rw [hw] at hall
    rw [if_pos hsuffix, if_pos hall]
  · rw [if_neg hall] at h
    exact absurd h (by simp)

/-- Witness for C6: re-validating the accepted output of
`validate_filename "shot"` leaves it unchanged. -/
theorem screenshot_filename_normalization_idempotent_witness :
    validate_filename (strL "shot") = Except.ok (strL "shot.png") ∧
    validate_filename (strL "shot.png") = Except.ok (strL "shot.png") :=
  ⟨screenshot_filename_normalization_idempotent.1,
   screenshot_filename_normalization_idempotent.2.2 (strL "shot")
     (strL "shot.png") screenshot_filename_normalization_idempotent.1⟩

/-- Claim C7: in the booking flow's city-suggestion stage, for every
requested city and every non-empty option list, if no matching
pattern matches any option, the stage still selects the first listed
option (index 0) instead of aborting. -/
theorem suggestion_fallback_selects_first_option (city : Str)
    (opts : List Suggestion) (hne : opts ≠ [])
    (hno : ∀ s ∈ opts, optionScore city s = false) :
    stage_select_city city opts = some 0 := by
  have hsel : select_city_from_suggestions city opts = none := by
    unfold select_city_from_suggestions
    cases hcp : cityPatterns city with
    | none => rfl
    | some pats =>
      apply findIdxL_eq_none
      intro s hs
      have hmem := hno s (List.take_subset 10 opts hs)
      unfold optionScore at hmem
      rw [hcp] at hmem
      exact hmem
  unfold stage_select_city
  rw [hsel]
  cases opts with
  | nil => exact absurd rfl hne
  | cons a as => rfl

/-- Witness for C7: no pattern of `zurich` matches the two options,
yet the first one is selected. -/
theorem suggestion_fallback_selects_first_option_witness :
    stage_select_city (strL "zurich")
      [⟨true, some (strL "paris (cdg)")⟩, ⟨true, some (strL "rome")⟩] =
      some 0 :=
  suggestion_fallback_selects_first_option (strL "zurich")
    [⟨true, some (strL "paris (cdg)")⟩, ⟨true, some (strL "rome")⟩]
    (by decide) (by decide)

/-- Claim C8: for every validated plan, if the runner of the k-th
action fails, the executor still records an outcome for every action
of the plan, in order — the log is the action-wise map of the runner,
its length is the plan length, and entry k records the failure; a
single action's failure never aborts the rest of the plan. -/
theorem executor_continues_after_action_failure
    (runner : Action → Except String Unit) (data : List RawAction)
    (acts : List Action) (k : Nat) (a : Action) (reason : String)
    (hv : validate_actions data = Except.ok acts)
    (hk : acts[k]? = some a)
    (hf : runner a = Except.error reason) :
    (execute_actions runner data).sessionOpened = true ∧
    (execute_actions runner data).outcomes = acts.map (runOne runner) ∧
    (execute_actions runner data).outcomes.length = acts.length ∧
    (execute_actions runner data).outcomes[k]? =
      some (Outcome.failed reason) := by
  have he : execute_actions runner data =
      { raisedToCaller := none, printedError := none, sessionOpened := true,
        outcomes := run_actions runner acts } := by
    unfold execute_actions
    rw [hv]
  rw [he, run_actions_eq_map runner acts]
  refine ⟨rfl, rfl, by simp, ?_⟩
  simp only [List.getElem?_map, hk, Option.map_some]
  simp [runOne, hf]

/-- Witness for C8: a three-action plan whose middle (click) action
fails still yields three outcomes, with the failure recorded at
index 1. -/
theorem executor_continues_after_action_failure_witness :
    (execute_actions
        (fun a => match a with
          | Action.click _ => Except.error "element not found"
          | _ => Except.ok ())
        [{ action := some (strL "goto"), value := some (strL "https://x") },
         { action := some (strL "click"), selector := some (strL "div.g a") },
         { action := some (strL "wait") }]).sessionOpened = true ∧
    (execute_actions
        (fun a => match a with
          | Action.click _ => Except.error "element not found"
          | _ => Except.ok ())
        [{ action := some (strL "goto"), value := some (strL "https://x") },
         { action := some (strL "click"), selector := some (strL "div.g a") },
         { action := some (strL "wait") }]).outcomes.length = 3 ∧
    (execute_actions
        (fun a => match a with
          | Action.click _ => Except.error "element not found"
          | _ => Except.ok ())
        [{ action := some (strL "goto"), value := some (strL "https://x") },
         { action := some (strL "click"), selector := some (strL "div.g a") },
         { action := some (strL "wait") }]).outcomes[1]? =
      some (Outcome.failed "element not found") := by
  have h := executor_continues_after_action_failure
    (fun a => match a with
      | Action.click _ => Except.error "element not found"
      | _ => Except.ok ())
    [{ action := some (strL "goto"), value := some (strL "https://x") },
     { action := some (strL "click"), selector := some (strL "div.g a") },
     { action := some (strL "wait") }]
    [Action.goto (strL "https://x"), Action.click (strL "div.g a"),
     Action.wait 1000]
    1 (Action.click (strL "div.g a")) "element not found"
    (by rfl) (by rfl) (by rfl)
  exact ⟨h.1, h.2.2.1, h.2.2.2⟩

/-- Claim C9 (code bug): on a plan that fails schema validation the
executor does reject the plan wholesale — no browser session is
opened and no action executes — but the `ValueError` is caught and
printed at browser_executor.py lines 30-34 and the function returns
normally, so the error is *not* surfaced to the caller, contradicting
the function's own docstring (`Raises: ValueError: If actions are
invalid`).  Evaluated at the failing input
`[{action: goto, value: invalid-url}]`. -/
theorem validation_error_swallowed_not_raised
    (runner : Action → Except String Unit) :
    ∃ e,
      validate_actions [{ action := some (strL "goto"),
                          value := some (strL "invalid-url") }] = Except.error e ∧
      execute_actions runner [{ action := some (strL "goto"),
                                value := some (strL "invalid-url") }] =
        { raisedToCaller := none, printedError := some e,
          sessionOpened := false, outcomes := [] } := by
  exact ⟨"Invalid action at index 0: URL must start with http or https",
    by rfl, by rfl⟩

/-- Witness for C9 with a concrete (vacuous) runner. -/
theorem validation_error_swallowed_not_raised_witness :
    ∃ e,
      validate_actions [{ action := some (strL "goto"),
                          value := some (strL "invalid-url") }] = Except.error e ∧
      execute_actions (fun _ => Except.ok ())
        [{ action := some (strL "goto"),
            value := some (strL "invalid-url") }] =
        { raisedToCaller := none, printedError := some e,
          sessionOpened := false, outcomes := [] } :=
  validation_error_swallowed_not_raised (fun _ => Except.ok ())

end WebAgent
